import Mathlib

/-!
Shallow embedding of the DS3OS reliable-UDP core:

* the reliable packet stream state machine
  (Source/Server/Server/Streams/Frpg2ReliableUdpPacketStream.cpp),
* the per-client supervisor (GameClient),
* the Decrypt path of the CWC AEAD codec (CWCCipher).

Machine integers are modelled as Nat with explicit reduction modulo 2^24
where the source wraps; the monotonic double-second clock is modelled as
Rat; the mutable state of each class is a structure and every method is a pure
function from (and to) that structure.  Wire output produced through
SendRaw is accumulated in a trace field of the stream state.  Numeric
build-configuration constants (Config/BuildConfig.h is not part of the
sources) are collected in a BuildConfig parameter.
-/

/-- Opcode of a reliable packet, from Frpg2ReliableUdpOpCode.  The exact
wire byte values are an open question of the spec and are irrelevant here;
the opcodes themselves are a closed enumeration. -/
inductive Frpg2ReliableUdpOpCode where
  | Unset
  | SYN
  | SYN_ACK
  | DAT
  | HBT
  | FIN
  | RST
  | ACK
  | RACK
  | DAT_ACK
  | FIN_ACK
deriving DecidableEq, Repr

/-- Stream state, from Frpg2ReliableUdpStreamState (spelling of
SynRecieved follows the source). -/
inductive Frpg2ReliableUdpStreamState where
  | Listening
  | Connecting
  | SynRecieved
  | Established
  | Closing
  | Closed
deriving DecidableEq, Repr

/-- Modelled from the spec: MAX_ACK_VALUE lives in the class header, which
is not under src; §3 of the spec fixes the sequence space as 24-bit,
MAX_ACK_VALUE = 2^24. -/
def MAX_ACK_VALUE : Nat := 2 ^ 24

/-- Modelled from the spec: TOP_QUART = 3·2^22 (§3); the constant itself
is declared in the class header, which is not under src. -/
def MAX_ACK_VALUE_TOP_QUART : Nat := 3 * 2 ^ 22

/-- Modelled from the spec: BOTTOM_QUART = 2^22 (§3); the constant itself
is declared in the class header, which is not under src. -/
def MAX_ACK_VALUE_BOTTOM_QUART : Nat := 2 ^ 22

/-- Reliable packet header.  The source stores magic_number and a packed
48-bit counter field accessed through GetAckCounters/SetAckCounters (both
in the class header, not under src); per §3/§6 of the spec the packed
field is exactly the pair (local_ack, remote_ack) of 24-bit counters, so
the header is modelled as that pair plus the opcode. -/
structure Frpg2ReliableUdpPacketHeader where
  localAck : Nat
  remoteAck : Nat
  opcode : Frpg2ReliableUdpOpCode
deriving DecidableEq, Repr

/-- Reliable packet: header, payload bytes, and the SendTime stamp used by
the retransmission logic. -/
structure Frpg2ReliableUdpPacket where
  header : Frpg2ReliableUdpPacketHeader
  payload : List Nat
  sendTime : Rat
deriving DecidableEq, Repr

/-- Modelled from the spec: the numeric constants live in
Config/BuildConfig.h, which is not under src.  All claims are independent
of the concrete values, so they are threaded as a parameter. -/
structure BuildConfig where
  maxPacketsInFlight : Nat
  minTimeBetweenResendAck : Rat
  retransmitInterval : Rat
  retransmitCycleInterval : Rat
  resendSynInterval : Rat
  connectionCloseTimeout : Rat
  clientTimeout : Rat
  startSequenceIndex : Nat
deriving DecidableEq, Repr

/-- Mutable state of Frpg2ReliableUdpPacketStream.  The wire field is the
trace the model keeps of packets emitted through SendRaw (the underlying UDP
packet stream send, an external collaborator, is modelled as succeeding;
per §4.B it fails only on socket error, which is out of scope here). -/
structure Frpg2ReliableUdpPacketStream where
  state : Frpg2ReliableUdpStreamState
  inErrorState : Bool
  sequenceIndex : Nat
  sequenceIndexAcked : Nat
  remoteSequenceIndex : Nat
  remoteSequenceIndexAcked : Nat
  sendQueue : List Frpg2ReliableUdpPacket
  retransmitBuffer : List Frpg2ReliableUdpPacket
  pendingRecieveQueue : List Frpg2ReliableUdpPacket
  recieveQueue : List Frpg2ReliableUdpPacket
  datAckResponses : List Nat
  expectedDatAckResponses : List Nat
  lastPacketRecievedTime : Rat
  lastAckSendTime : Rat
  resendSynTimer : Rat
  closeTimer : Rat
  retransmissionTimer : Rat
  isRetransmitting : Bool
  retransmittingIndex : Nat
  retransmitPacket : Frpg2ReliableUdpPacket
  wire : List Frpg2ReliableUdpPacket
deriving DecidableEq, Repr

/-- Insertion into a std::set of uint32_t, modelled as a duplicate-free
list. -/
def SetInsert (x : Nat) (l : List Nat) : List Nat :=
  if x ∈ l then l else x :: l

/-- Erasure from a std::set of uint32_t. -/
def SetErase (x : Nat) (l : List Nat) : List Nat :=
  l.filter (fun y => y ≠ x)

namespace Frpg2ReliableUdpPacketStream

open Frpg2ReliableUdpOpCode Frpg2ReliableUdpStreamState

/-- IsOpcodeSequenced, lines 256-265 of the source: DAT, DAT_ACK and
FIN_ACK are the sequenced opcodes. -/
def IsOpcodeSequenced (Opcode : Frpg2ReliableUdpOpCode) : Bool :=
  Opcode = DAT || Opcode = DAT_ACK || Opcode = FIN_ACK

/-- SendRaw: encodes and transmits one packet immediately.  Encoding
(EncodeReliablePacket) always succeeds in the source, and the underlying
UDP send is an external collaborator modelled as succeeding, so the model
appends the packet to the wire trace. -/
def SendRaw (Input : Frpg2ReliableUdpPacket) (s : Frpg2ReliableUdpPacketStream) :
    Frpg2ReliableUdpPacketStream :=
  { s with wire := s.wire ++ [Input] }

/-- Send, lines 51-96 of the source: swallow while Closing; sequenced or
Unset opcodes get the Unset resolution (fill in local ack from
sequenceIndex, choose DAT_ACK when the caller supplied a non-zero remote
ack) then bump sequenceIndex mod 2^24 and join the send queue; all other
opcodes are transmitted raw immediately.  The source returns true on
every path, so the model returns only the new state. -/
def Send (now : Rat) (Input : Frpg2ReliableUdpPacket)
    (s : Frpg2ReliableUdpPacketStream) : Frpg2ReliableUdpPacketStream :=
  if s.state = Closing then
    s
  else if IsOpcodeSequenced Input.header.opcode || Input.header.opcode = Unset then
    let base := { Input with sendTime := now }
    let step :=
      if base.header.opcode = Unset then
        let Remote := base.header.remoteAck
        if Remote > 0 then
          ({ base with header :=
              { localAck := s.sequenceIndex, remoteAck := Remote, opcode := DAT_ACK } },
           { s with datAckResponses := SetInsert Remote s.datAckResponses,
                    remoteSequenceIndexAcked := Remote })
        else
          ({ base with header :=
              { localAck := s.sequenceIndex, remoteAck := Remote, opcode := DAT } },
           s)
      else
        (base, s)
    let s1 := step.2
    { s1 with sequenceIndex := (s1.sequenceIndex + 1) % MAX_ACK_VALUE,
              sendQueue := s1.sendQueue ++ [step.1] }
  else
    SendRaw Input s

/-- Recieve, lines 98-109 of the source: pop the head of the in-order
receive queue if any. -/
def Recieve (s : Frpg2ReliableUdpPacketStream) :
    Option Frpg2ReliableUdpPacket × Frpg2ReliableUdpPacketStream :=
  match s.recieveQueue with
  | [] => (none, s)
  | p :: rest => (some p, { s with recieveQueue := rest })

/-- Send_ACK, lines 590-600: transmit ACK(0, RemoteIndex) through Send,
then record the acknowledged remote index and stamp the ack send time. -/
def Send_ACK (now : Rat) (RemoteIndex : Nat)
    (s : Frpg2ReliableUdpPacketStream) : Frpg2ReliableUdpPacketStream :=
  let pkt : Frpg2ReliableUdpPacket :=
    { header := { localAck := 0, remoteAck := RemoteIndex, opcode := ACK },
      payload := [], sendTime := 0 }
  let s := Send now pkt s
  { s with remoteSequenceIndexAcked := RemoteIndex, lastAckSendTime := now }

/-- Send_SYN, lines 553-565 (the SYN opcode payload carries no data the
model tracks). -/
def Send_SYN (now : Rat) (s : Frpg2ReliableUdpPacketStream) :
    Frpg2ReliableUdpPacketStream :=
  let pkt : Frpg2ReliableUdpPacket :=
    { header := { localAck := s.sequenceIndex, remoteAck := 0, opcode := SYN },
      payload := [], sendTime := 0 }
  Send now pkt s

/-- Send_SYN_ACK, lines 567-588: transmit SYN_ACK(sequenceIndex,
RemoteIndex), record the remote sequence index, and bump sequenceIndex
(the source comment: SYN_ACK bumps the sequence index without following
the other sequenced conventions). -/
def Send_SYN_ACK (now : Rat) (RemoteIndex : Nat)
    (s : Frpg2ReliableUdpPacketStream) : Frpg2ReliableUdpPacketStream :=
  let pkt : Frpg2ReliableUdpPacket :=
    { header := { localAck := s.sequenceIndex, remoteAck := RemoteIndex, opcode := SYN_ACK },
      payload := [], sendTime := 0 }
  let s := Send now pkt s
  { s with remoteSequenceIndex := RemoteIndex,
           sequenceIndex := (s.sequenceIndex + 1) % MAX_ACK_VALUE }

/-- Send_DAT_ACK, lines 602-612. -/
def Send_DAT_ACK (now : Rat) (LocalIndex RemoteIndex : Nat)
    (s : Frpg2ReliableUdpPacketStream) : Frpg2ReliableUdpPacketStream :=
  let pkt : Frpg2ReliableUdpPacket :=
    { header := { localAck := LocalIndex, remoteAck := RemoteIndex, opcode := DAT_ACK },
      payload := [], sendTime := 0 }
  let s := Send now pkt s
  { s with remoteSequenceIndexAcked := RemoteIndex, lastAckSendTime := now }

/-- Send_FIN_ACK, lines 614-621. -/
def Send_FIN_ACK (now : Rat) (RemoteIndex : Nat)
    (s : Frpg2ReliableUdpPacketStream) : Frpg2ReliableUdpPacketStream :=
  let pkt : Frpg2ReliableUdpPacket :=
    { header := { localAck := s.sequenceIndex, remoteAck := RemoteIndex, opcode := FIN_ACK },
      payload := [], sendTime := 0 }
  Send now pkt s

/-- Send_FIN, lines 623-633: transmit FIN then move to Closing and start
the close timer. -/
def Send_FIN (now : Rat) (s : Frpg2ReliableUdpPacketStream) :
    Frpg2ReliableUdpPacketStream :=
  let pkt : Frpg2ReliableUdpPacket :=
    { header := { localAck := s.sequenceIndex, remoteAck := 0, opcode := FIN },
      payload := [], sendTime := 0 }
  let s := Send now pkt s
  { s with state := Closing, closeTimer := now }

/-- Send_HBT, lines 635-642. -/
def Send_HBT (now : Rat) (s : Frpg2ReliableUdpPacketStream) :
    Frpg2ReliableUdpPacketStream :=
  let pkt : Frpg2ReliableUdpPacket :=
    { header := { localAck := 0, remoteAck := s.remoteSequenceIndexAcked, opcode := HBT },
      payload := [], sendTime := 0 }
  Send now pkt s

/-- Reset, lines 683-694: counters back to their initial values and all
four queues cleared (state, error flag, timers, sets and the retransmit
cursor are untouched, as in the source). -/
def Reset (cfg : BuildConfig) (s : Frpg2ReliableUdpPacketStream) :
    Frpg2ReliableUdpPacketStream :=
  { s with sequenceIndex := cfg.startSequenceIndex,
           sequenceIndexAcked := 0,
           remoteSequenceIndex := 0,
           remoteSequenceIndexAcked := 0,
           pendingRecieveQueue := [],
           recieveQueue := [],
           sendQueue := [],
           retransmitBuffer := [] }

/-- Disconnect, lines 34-40. -/
def Disconnect (now : Rat) (s : Frpg2ReliableUdpPacketStream) :
    Frpg2ReliableUdpPacketStream :=
  if s.state = Established then Send_FIN now s else s

/-- Connect, lines 42-49 (the steam id string is not tracked). -/
def Connect (now : Rat) (s : Frpg2ReliableUdpPacketStream) :
    Frpg2ReliableUdpPacketStream :=
  Send_SYN now { s with state := Connecting, resendSynTimer := now }

/-- Handle_SYN, lines 396-410. -/
def Handle_SYN (now : Rat) (Packet : Frpg2ReliableUdpPacket)
    (s : Frpg2ReliableUdpPacketStream) : Frpg2ReliableUdpPacketStream :=
  let s := { s with state := SynRecieved }
  let s := Send_SYN_ACK now Packet.header.localAck s
  Send_ACK now Packet.header.localAck s

/-- Handle_SYN_ACK, lines 412-430: move to SynRecieved, adopt the local ack of the peer as remoteSequenceIndex, ACK it, then bump sequenceIndex. -/
def Handle_SYN_ACK (now : Rat) (Packet : Frpg2ReliableUdpPacket)
    (s : Frpg2ReliableUdpPacketStream) : Frpg2ReliableUdpPacketStream :=
  let s := { s with state := SynRecieved, remoteSequenceIndex := Packet.header.localAck }
  let s := Send_ACK now s.remoteSequenceIndex s
  { s with sequenceIndex := (s.sequenceIndex + 1) % MAX_ACK_VALUE }

/-- Handle_HBT, lines 432-450: modular-max update of sequenceIndexAcked
from the remote ack of the packet, then respond with a HBT. -/
def Handle_HBT (now : Rat) (Packet : Frpg2ReliableUdpPacket)
    (s : Frpg2ReliableUdpPacketStream) : Frpg2ReliableUdpPacketStream :=
  let InRemoteAck := Packet.header.remoteAck
  let s :=
    if s.sequenceIndexAcked > MAX_ACK_VALUE_TOP_QUART ∧
        InRemoteAck < MAX_ACK_VALUE_BOTTOM_QUART then
      { s with sequenceIndexAcked := InRemoteAck }
    else
      { s with sequenceIndexAcked := max s.sequenceIndexAcked InRemoteAck }
  Send_HBT now s

/-- Handle_FIN, lines 452-463. -/
def Handle_FIN (now : Rat) (Packet : Frpg2ReliableUdpPacket)
    (s : Frpg2ReliableUdpPacketStream) : Frpg2ReliableUdpPacketStream :=
  let s := Send_FIN_ACK now Packet.header.localAck s
  { s with state := Closing }

/-- Handle_FIN_ACK, lines 465-469. -/
def Handle_FIN_ACK (Packet : Frpg2ReliableUdpPacket)
    (s : Frpg2ReliableUdpPacketStream) : Frpg2ReliableUdpPacketStream :=
  { s with state := Closing }

/-- Handle_RST, lines 471-477. -/
def Handle_RST (cfg : BuildConfig) (Packet : Frpg2ReliableUdpPacket)
    (s : Frpg2ReliableUdpPacketStream) : Frpg2ReliableUdpPacketStream :=
  Reset cfg { s with state := Listening }

/-- Handle_ACK, lines 479-505: SynRecieved moves to Established; then the
modular-max update of sequenceIndexAcked from the remote ack of the packet. -/
def Handle_ACK (Packet : Frpg2ReliableUdpPacket)
    (s : Frpg2ReliableUdpPacketStream) : Frpg2ReliableUdpPacketStream :=
  let s := if s.state = SynRecieved then { s with state := Established } else s
  let InRemoteAck := Packet.header.remoteAck
  if s.sequenceIndexAcked > MAX_ACK_VALUE_TOP_QUART ∧
      InRemoteAck < MAX_ACK_VALUE_BOTTOM_QUART then
    { s with sequenceIndexAcked := InRemoteAck }
  else
    { s with sequenceIndexAcked := max s.sequenceIndexAcked InRemoteAck }

/-- Handle_RACK, lines 506-512: ignored. -/
def Handle_RACK (Packet : Frpg2ReliableUdpPacket)
    (s : Frpg2ReliableUdpPacketStream) : Frpg2ReliableUdpPacketStream :=
  s

/-- Handle_DAT, lines 514-526: remember that a DAT_ACK response is
expected, push to the receive queue, ACK the local ack of the packet. -/
def Handle_DAT (now : Rat) (Packet : Frpg2ReliableUdpPacket)
    (s : Frpg2ReliableUdpPacketStream) : Frpg2ReliableUdpPacketStream :=
  let s := { s with
    expectedDatAckResponses := SetInsert Packet.header.localAck s.expectedDatAckResponses,
    recieveQueue := s.recieveQueue ++ [Packet] }
  Send_ACK now Packet.header.localAck s

/-- Handle_DAT_ACK, lines 528-551: modular-max update of
sequenceIndexAcked, ACK the packet, push to the receive queue. -/
def Handle_DAT_ACK (now : Rat) (Packet : Frpg2ReliableUdpPacket)
    (s : Frpg2ReliableUdpPacketStream) : Frpg2ReliableUdpPacketStream :=
  let InRemoteAck := Packet.header.remoteAck
  let s :=
    if s.sequenceIndexAcked > MAX_ACK_VALUE_TOP_QUART ∧
        InRemoteAck < MAX_ACK_VALUE_BOTTOM_QUART then
      { s with sequenceIndexAcked := InRemoteAck }
    else
      { s with sequenceIndexAcked := max s.sequenceIndexAcked InRemoteAck }
  let s := Send_ACK now Packet.header.localAck s
  { s with recieveQueue := s.recieveQueue ++ [Packet] }

/-- ProcessPacket, lines 328-394: exhaustive dispatch on opcode.  The
default arm of the source (reached only for Unset) logs an error and
asserts; per §7 of the spec an unknown opcode marks the stream fatal,
which is how the model renders that arm. -/
def ProcessPacket (cfg : BuildConfig) (now : Rat)
    (Packet : Frpg2ReliableUdpPacket) (s : Frpg2ReliableUdpPacketStream) :
    Frpg2ReliableUdpPacketStream :=
  match Packet.header.opcode with
  | SYN => Handle_SYN now Packet s
  | SYN_ACK => Handle_SYN_ACK now Packet s
  | DAT => Handle_DAT now Packet s
  | HBT => Handle_HBT now Packet s
  | FIN => Handle_FIN now Packet s
  | RST => Handle_RST cfg Packet s
  | ACK => Handle_ACK Packet s
  | RACK => Handle_RACK Packet s
  | DAT_ACK => Handle_DAT_ACK now Packet s
  | FIN_ACK => Handle_FIN_ACK Packet s
  | Unset => { s with inErrorState := true }

/-- GetPacketIndexByLocalSequence, lines 241-254: index of the first
packet in the queue whose local ack equals SequenceIndex, or -1. -/
def GetPacketIndexByLocalSequence (Queue : List Frpg2ReliableUdpPacket)
    (SequenceIndex : Nat) : Int :=
  match Queue.findIdx? (fun p => p.header.localAck = SequenceIndex) with
  | some i => (i : Int)
  | none => -1

/-- Modelled from the spec: GetNextRemoteSequenceIndex is defined in the
class header, which is not under src; §4.C of the spec gives
next = (remote_sequence_index + 1) mod 2^24. -/
def GetNextRemoteSequenceIndex (s : Frpg2ReliableUdpPacketStream) : Nat :=
  (s.remoteSequenceIndex + 1) % MAX_ACK_VALUE

/-- HandleIncomingPacket, lines 267-326: stamp the receive time; for a
sequenced opcode require Established (else fatal), then the out-of-order
or duplicate test (the bool in the source is named IsInCorrectSequence though
true means out of sequence): if it fires and the ack rate limit allows,
re-ACK the last acknowledged remote index and drop; if it fires inside
the rate limit, silently drop; otherwise append to the pending receive
queue.  Non-sequenced opcodes go straight to ProcessPacket. -/
def HandleIncomingPacket (cfg : BuildConfig) (now : Rat)
    (Packet : Frpg2ReliableUdpPacket) (s : Frpg2ReliableUdpPacketStream) :
    Frpg2ReliableUdpPacketStream :=
  let s := { s with lastPacketRecievedTime := now }
  if IsOpcodeSequenced Packet.header.opcode then
    if s.state ≠ Established then
      { s with inErrorState := true }
    else
      let IsInCorrectSequence : Bool :=
        decide (Packet.header.localAck ≠ GetNextRemoteSequenceIndex s) ||
        decide (GetPacketIndexByLocalSequence s.pendingRecieveQueue Packet.header.localAck ≥ 0)
      if IsInCorrectSequence ∧ now - s.lastAckSendTime > cfg.minTimeBetweenResendAck then
        Send_ACK now s.remoteSequenceIndexAcked s
      else if ¬ IsInCorrectSequence then
        { s with pendingRecieveQueue := s.pendingRecieveQueue ++ [Packet] }
      else
        s
  else
    ProcessPacket cfg now Packet s

/-- The pending-queue drain loop of HandleIncoming, lines 216-238: while
the head of the pending receive queue carries the next expected remote
sequence, process it, drop it from the queue and advance
remoteSequenceIndex.  Each iteration removes the head and no opcode
handler ever adds to the pending queue, so fuel equal to the initial
queue length makes the fuel-indexed recursion coincide with the while
loop of the source. -/
def ProcessPendingFuel (cfg : BuildConfig) (now : Rat) :
    Nat → Frpg2ReliableUdpPacketStream → Frpg2ReliableUdpPacketStream
  | 0, s => s
  | fuel + 1, s =>
    match s.pendingRecieveQueue with
    | [] => s
    | Next :: _ =>
      if Next.header.localAck = GetNextRemoteSequenceIndex s then
        let s := ProcessPacket cfg now Next s
        let s := { s with pendingRecieveQueue := s.pendingRecieveQueue.drop 1 }
        let s := { s with remoteSequenceIndex := (s.remoteSequenceIndex + 1) % MAX_ACK_VALUE }
        ProcessPendingFuel cfg now fuel s
      else
        s

/-- HandleIncoming, lines 167-239, at the reliable-packet level: feed
every freshly decoded inbound packet through HandleIncomingPacket, then
drain the pending receive queue.  (The front end of the source loop —
initial-data stripping and DecodeReliablePacket — is modelled separately
by DecodeReliablePacket below; Incoming is the list of packets that
decoded successfully this tick.) -/
def HandleIncoming (cfg : BuildConfig) (now : Rat)
    (Incoming : List Frpg2ReliableUdpPacket) (s : Frpg2ReliableUdpPacketStream) :
    Frpg2ReliableUdpPacketStream :=
  let s := Incoming.foldl (fun acc p => HandleIncomingPacket cfg now p acc) s
  ProcessPendingFuel cfg now s.pendingRecieveQueue.length s

/-- The retransmit-buffer prune condition of HandleOutgoing, lines
699-718: a buffered packet is dropped when its local ack has been
acknowledged under the modular comparison. -/
def RetransmitPruneCond (SequenceIndexAcked : Nat)
    (Packet : Frpg2ReliableUdpPacket) : Bool :=
  decide ((Packet.header.localAck > MAX_ACK_VALUE_TOP_QUART ∧
            SequenceIndexAcked < MAX_ACK_VALUE_BOTTOM_QUART) ∨
          Packet.header.localAck ≤ SequenceIndexAcked)

/-- The send-queue drain loop of HandleOutgoing, lines 765-778: while not
retransmitting, the send queue is non-empty and the retransmit buffer is
below MAX_PACKETS_IN_FLIGHT, move the head of the send queue into the
retransmit buffer and transmit it.  The body never grows the send queue,
so fuel equal to the initial send-queue length realises the while loop. -/
def DrainSendQueueFuel (cfg : BuildConfig) :
    Nat → Frpg2ReliableUdpPacketStream → Frpg2ReliableUdpPacketStream
  | 0, s => s
  | fuel + 1, s =>
    if s.isRetransmitting = false ∧ s.sendQueue ≠ [] ∧
        s.retransmitBuffer.length < cfg.maxPacketsInFlight then
      match s.sendQueue with
      | [] => s
      | Packet :: rest =>
        let s := { s with sendQueue := rest,
                          retransmitBuffer := s.retransmitBuffer ++ [Packet] }
        DrainSendQueueFuel cfg fuel (SendRaw Packet s)
    else
      s

/-- The retransmit-trigger scan of HandleOutgoing, lines 720-744: when
not already retransmitting, walk the retransmit buffer and, for every
packet older than RETRANSMIT_INTERVAL, resend it and point the retransmit
cursor at it (the source loop has no break, so the cursor ends on the
last stale packet and every stale packet is resent once). -/
def RetransmitScan (cfg : BuildConfig) (now : Rat)
    (Buffer : List Frpg2ReliableUdpPacket) (s : Frpg2ReliableUdpPacketStream) :
    Frpg2ReliableUdpPacketStream :=
  Buffer.foldl (fun acc Packet =>
    if now - Packet.sendTime > cfg.retransmitInterval then
      let acc := SendRaw Packet acc
      { acc with isRetransmitting := true,
                 retransmittingIndex := Packet.header.localAck,
                 retransmitPacket := Packet,
                 retransmissionTimer := now }
    else
      acc) s

/-- The retransmitting-state step of HandleOutgoing, lines 746-763: if
the peer has acked at or past the retransmitting index under the modular
comparison, recover; otherwise resend the cursor packet once each
RETRANSMIT_CYCLE_INTERVAL. -/
def RetransmitCycle (cfg : BuildConfig) (now : Rat)
    (s : Frpg2ReliableUdpPacketStream) : Frpg2ReliableUdpPacketStream :=
  if (s.retransmittingIndex > MAX_ACK_VALUE_TOP_QUART ∧
        s.sequenceIndexAcked < MAX_ACK_VALUE_BOTTOM_QUART) ∨
      s.sequenceIndexAcked ≥ s.retransmittingIndex then
    { s with isRetransmitting := false }
  else if now - s.retransmissionTimer > cfg.retransmitCycleInterval then
    SendRaw s.retransmitPacket { s with retransmissionTimer := now }
  else
    s

/-- HandleOutgoing, lines 696-779: prune acknowledged packets from the
retransmit buffer; then either the retransmit-trigger scan or the
retransmitting-state step; finally drain the send queue into the
retransmit buffer up to MAX_PACKETS_IN_FLIGHT. -/
def HandleOutgoing (cfg : BuildConfig) (now : Rat)
    (s : Frpg2ReliableUdpPacketStream) : Frpg2ReliableUdpPacketStream :=
  let s := { s with
    retransmitBuffer := s.retransmitBuffer.filter
      (fun p => !(RetransmitPruneCond s.sequenceIndexAcked p)) }
  let s :=
    if s.isRetransmitting = false then
      RetransmitScan cfg now s.retransmitBuffer s
    else
      RetransmitCycle cfg now s
  DrainSendQueueFuel cfg s.sendQueue.length s

/-- Pump, lines 781-829: Closing with a drained send queue becomes
Closed; a Closed stream resets and reports terminal; then the underlying
UDP stream pump (not under src; per §4.B/§7 it reports the fatal flag,
modelled as the inErrorState flag); then the Connecting-state SYN resend;
then the forced close timeout; otherwise one tick of incoming and
outgoing handling, reporting false. -/
def Pump (cfg : BuildConfig) (now : Rat)
    (Incoming : List Frpg2ReliableUdpPacket) (s : Frpg2ReliableUdpPacketStream) :
    Frpg2ReliableUdpPacketStream × Bool :=
  let s := if s.state = Closing ∧ s.sendQueue = [] then { s with state := Closed } else s
  if s.state = Closed then
    (Reset cfg s, true)
  else if s.inErrorState then
    (s, true)
  else
    let s :=
      if s.state = Connecting ∧ now - s.resendSynTimer > cfg.resendSynInterval then
        { (Send_SYN now s) with resendSynTimer := now }
      else
        s
    if s.closeTimer > 0 ∧ s.state = Closing ∧ now - s.closeTimer > cfg.connectionCloseTimeout then
      ({ s with state := Closed }, true)
    else
      let s := HandleIncoming cfg now Incoming s
      let s := HandleOutgoing cfg now s
      (s, false)

/-- DecodeReliablePacket, lines 111-132, over raw decrypted payload
bytes: payloads shorter than the 12-byte header mark the stream fatal and
yield nothing; the source then asserts the 0xF5 0x02 magic via Ensure
(helper not under src; per §7 of the spec a bad magic is a malformed
reliable header and marks the stream fatal, which is how the model
renders a failed assert); otherwise the header bytes are parsed (through
the parse parameter, since GetAckCounters and the opcode byte table are
open questions of the spec) and the rest of the bytes become the packet
payload. -/
def DecodeReliablePacket (parse : List Nat → Frpg2ReliableUdpPacketHeader)
    (Input : List Nat) (s : Frpg2ReliableUdpPacketStream) :
    Frpg2ReliableUdpPacketStream × Option Frpg2ReliableUdpPacket :=
  if Input.length < 12 then
    ({ s with inErrorState := true }, none)
  else if Input.take 2 ≠ [0xF5, 0x02] then
    ({ s with inErrorState := true }, none)
  else
    (s, some { header := parse (Input.take 12), payload := Input.drop 12, sendTime := 0 })

end Frpg2ReliableUdpPacketStream

/-- Per-client supervisor state (GameClient): the only mutable field the
given source touches is LastMessageRecievedTime, assigned in the
constructor. -/
structure GameClient where
  lastMessageRecievedTime : Rat
deriving DecidableEq, Repr

/-- Inputs of one tick to GameClient::Poll from its external
collaborators: the current clock reading, the results of pumping the
network connection and the message stream, the connection liveness flag,
and the auth tokens of the packets the message stream yields this tick. -/
structure GameClientPollInput where
  now : Rat
  connectionPumpFatal : Bool
  connectionConnected : Bool
  messageStreamPumpFatal : Bool
  packetAuthTokens : List Nat
deriving DecidableEq, Repr

/-- Observable outcome of one GameClient::Poll call: the returned
disconnect flag, whether the connection pump and the message-stream pump
were reached this tick, and the auth tokens passed to RefreshAuthToken. -/
structure GameClientPollResult where
  disconnect : Bool
  pumpedConnection : Bool
  pumpedMessageStream : Bool
  refreshedTokens : List Nat
deriving DecidableEq, Repr

namespace GameClient

/-- The GameClient constructor, lines 20-27 of the supervisor source:
LastMessageRecievedTime is set to the current clock reading. -/
def init (now : Rat) : GameClient :=
  { lastMessageRecievedTime := now }

/-- GameClient::Poll, lines 29-67 of the supervisor source: first the
idle-timeout check (returns disconnect before either pump runs); then
the connection pump and liveness check; then the message-stream pump;
then the auth token of every received packet is refreshed; returns false. -/
def Poll (cfg : BuildConfig) (inp : GameClientPollInput) (c : GameClient) :
    GameClient × GameClientPollResult :=
  if inp.now - c.lastMessageRecievedTime ≥ cfg.clientTimeout then
    (c, { disconnect := true, pumpedConnection := false,
          pumpedMessageStream := false, refreshedTokens := [] })
  else if inp.connectionPumpFatal then
    (c, { disconnect := true, pumpedConnection := true,
          pumpedMessageStream := false, refreshedTokens := [] })
  else if inp.connectionConnected = false then
    (c, { disconnect := true, pumpedConnection := true,
          pumpedMessageStream := false, refreshedTokens := [] })
  else if inp.messageStreamPumpFatal then
    (c, { disconnect := true, pumpedConnection := true,
          pumpedMessageStream := true, refreshedTokens := [] })
  else
    (c, { disconnect := false, pumpedConnection := true,
          pumpedMessageStream := true, refreshedTokens := inp.packetAuthTokens })

/-- A sequence of Poll calls, threading the client state. -/
def PollMany (cfg : BuildConfig) (inputs : List GameClientPollInput)
    (c : GameClient) : GameClient :=
  inputs.foldl (fun acc i => (Poll cfg i acc).1) c

end GameClient

namespace CWCCipher

/-- CWCCipher::Decrypt, lines 38-61 of the cipher source: inputs shorter
than 11+16+1 bytes fail outright; otherwise the first 11 bytes are the
IV, the next 16 the tag, and the rest is the ciphertext handed to the CWC
primitive.  cwc_decrypt_message is an external library primitive and is
a parameter of the model: it yields the decrypted plaintext, or none
exactly when tag verification fails. -/
def Decrypt (cwc : List Nat → List Nat → List Nat → Option (List Nat))
    (Input : List Nat) : Option (List Nat) :=
  if Input.length < 11 + 16 + 1 then
    none
  else
    cwc (Input.take 11) ((Input.drop 11).take 16) (Input.drop 27)

end CWCCipher

/-- The modular-compare update rule exactly as the spec words it (§4.C
Modular-compare rules, with the quartile values of §3): if x > 3·2^22 and
y < 2^22 assume wraparound and take y, else take max(x, y).  Stated from
the words of the spec so that the handlers translated from the source can be
compared against it. -/
def SpecModularMaxUpdate (x y : Nat) : Nat :=
  if x > 3 * 2 ^ 22 ∧ y < 2 ^ 22 then y else max x y

/-- A concrete build configuration used by the concrete witness and
counterexample instances (the claims themselves are proved for every
configuration). -/
def testCfg : BuildConfig :=
  { maxPacketsInFlight := 20, minTimeBetweenResendAck := 1,
    retransmitInterval := 5, retransmitCycleInterval := 1,
    resendSynInterval := 1, connectionCloseTimeout := 30,
    clientTimeout := 60, startSequenceIndex := 1 }

/-- A concrete reliable packet with the given counters and opcode. -/
def testPacket (l r : Nat) (op : Frpg2ReliableUdpOpCode) : Frpg2ReliableUdpPacket :=
  { header := { localAck := l, remoteAck := r, opcode := op }, payload := [], sendTime := 0 }

/-- A concrete Established stream state used by witnesses and
counterexamples: one message already exchanged in each direction
(remote sequence 1 received and acknowledged), local sequence at 10. -/
def testStream : Frpg2ReliableUdpPacketStream :=
  { state := Frpg2ReliableUdpStreamState.Established,
    inErrorState := false,
    sequenceIndex := 10,
    sequenceIndexAcked := 3,
    remoteSequenceIndex := 1,
    remoteSequenceIndexAcked := 1,
    sendQueue := [],
    retransmitBuffer := [],
    pendingRecieveQueue := [],
    recieveQueue := [],
    datAckResponses := [],
    expectedDatAckResponses := [],
    lastPacketRecievedTime := 0,
    lastAckSendTime := 0,
    resendSynTimer := 0,
    closeTimer := 0,
    retransmissionTimer := 0,
    isRetransmitting := false,
    retransmittingIndex := 0,
    retransmitPacket := testPacket 0 0 Frpg2ReliableUdpOpCode.ACK,
    wire := [] }

/-- The bounded-in-flight invariant of the spec (§3 Invariants, §8
property 3): the retransmit buffer never holds more than
MAX_PACKETS_IN_FLIGHT packets. -/
def RetransmitBound (cfg : BuildConfig) (s : Frpg2ReliableUdpPacketStream) : Prop :=
  s.retransmitBuffer.length ≤ cfg.maxPacketsInFlight

instance (cfg : BuildConfig) (s : Frpg2ReliableUdpPacketStream) :
    Decidable (RetransmitBound cfg s) := by
  unfold RetransmitBound
  infer_instance

namespace Frpg2ReliableUdpPacketStream

open Frpg2ReliableUdpOpCode Frpg2ReliableUdpStreamState

lemma Send_closing (now : Rat) (p : Frpg2ReliableUdpPacket)
    (s : Frpg2ReliableUdpPacketStream) (h : s.state = Closing) :
    Send now p s = s := by
  simp [Send, h]

lemma Send_not_sequenced (now : Rat) (p : Frpg2ReliableUdpPacket)
    (s : Frpg2ReliableUdpPacketStream) (h1 : s.state ≠ Closing)
    (h2 : IsOpcodeSequenced p.header.opcode = false)
    (h3 : p.header.opcode ≠ Unset) :
    Send now p s = SendRaw p s := by
  simp [Send, h1, h2, h3]

lemma Send_sequenced (now : Rat) (p : Frpg2ReliableUdpPacket)
    (s : Frpg2ReliableUdpPacketStream) (h1 : s.state ≠ Closing)
    (h2 : IsOpcodeSequenced p.header.opcode = true) :
    Send now p s =
      { s with sequenceIndex := (s.sequenceIndex + 1) % MAX_ACK_VALUE,
               sendQueue := s.sendQueue ++ [{ p with sendTime := now }] } := by
  have h3 : p.header.opcode ≠ Unset := by
    intro hh
    rw [hh] at h2
    exact absurd h2 (by decide)
  simp [Send, h1, h2, h3]

@[simp] lemma Send_state (now : Rat) (p : Frpg2ReliableUdpPacket)
    (s : Frpg2ReliableUdpPacketStream) : (Send now p s).state = s.state := by
  unfold Send SendRaw
  dsimp only
  split_ifs <;> simp

@[simp] lemma Send_inErrorState (now : Rat) (p : Frpg2ReliableUdpPacket)
    (s : Frpg2ReliableUdpPacketStream) : (Send now p s).inErrorState = s.inErrorState := by
  unfold Send SendRaw
  dsimp only
  split_ifs <;> simp

@[simp] lemma Send_sequenceIndexAcked (now : Rat) (p : Frpg2ReliableUdpPacket)
    (s : Frpg2ReliableUdpPacketStream) :
    (Send now p s).sequenceIndexAcked = s.sequenceIndexAcked := by
  unfold Send SendRaw
  dsimp only
  split_ifs <;> simp

@[simp] lemma Send_remoteSequenceIndex (now : Rat) (p : Frpg2ReliableUdpPacket)
    (s : Frpg2ReliableUdpPacketStream) :
    (Send now p s).remoteSequenceIndex = s.remoteSequenceIndex := by
  unfold Send SendRaw
  dsimp only
  split_ifs <;> simp

@[simp] lemma Send_retransmitBuffer (now : Rat) (p : Frpg2ReliableUdpPacket)
    (s : Frpg2ReliableUdpPacketStream) :
    (Send now p s).retransmitBuffer = s.retransmitBuffer := by
  unfold Send SendRaw
  dsimp only
  split_ifs <;> simp

@[simp] lemma Send_recieveQueue (now : Rat) (p : Frpg2ReliableUdpPacket)
    (s : Frpg2ReliableUdpPacketStream) :
    (Send now p s).recieveQueue = s.recieveQueue := by
  unfold Send SendRaw
  dsimp only
  split_ifs <;> simp

@[simp] lemma Send_pendingRecieveQueue (now : Rat) (p : Frpg2ReliableUdpPacket)
    (s : Frpg2ReliableUdpPacketStream) :
    (Send now p s).pendingRecieveQueue = s.pendingRecieveQueue := by
  unfold Send SendRaw
  dsimp only
  split_ifs <;> simp

@[simp] lemma Send_lastAckSendTime (now : Rat) (p : Frpg2ReliableUdpPacket)
    (s : Frpg2ReliableUdpPacketStream) :
    (Send now p s).lastAckSendTime = s.lastAckSendTime := by
  unfold Send SendRaw
  dsimp only
  split_ifs <;> simp

@[simp] lemma Send_lastPacketRecievedTime (now : Rat) (p : Frpg2ReliableUdpPacket)
    (s : Frpg2ReliableUdpPacketStream) :
    (Send now p s).lastPacketRecievedTime = s.lastPacketRecievedTime := by
  unfold Send SendRaw
  dsimp only
  split_ifs <;> simp

@[simp] lemma Send_closeTimer (now : Rat) (p : Frpg2ReliableUdpPacket)
    (s : Frpg2ReliableUdpPacketStream) : (Send now p s).closeTimer = s.closeTimer := by
  unfold Send SendRaw
  dsimp only
  split_ifs <;> simp

@[simp] lemma Send_resendSynTimer (now : Rat) (p : Frpg2ReliableUdpPacket)
    (s : Frpg2ReliableUdpPacketStream) :
    (Send now p s).resendSynTimer = s.resendSynTimer := by
  unfold Send SendRaw
  dsimp only
  split_ifs <;> simp

@[simp] lemma Send_isRetransmitting (now : Rat) (p : Frpg2ReliableUdpPacket)
    (s : Frpg2ReliableUdpPacketStream) :
    (Send now p s).isRetransmitting = s.isRetransmitting := by
  unfold Send SendRaw
  dsimp only
  split_ifs <;> simp

@[simp] lemma Send_expectedDatAckResponses (now : Rat) (p : Frpg2ReliableUdpPacket)
    (s : Frpg2ReliableUdpPacketStream) :
    (Send now p s).expectedDatAckResponses = s.expectedDatAckResponses := by
  unfold Send SendRaw
  dsimp only
  split_ifs <;> simp

lemma Send_sequenceIndex_not_sequenced (now : Rat) (p : Frpg2ReliableUdpPacket)
    (s : Frpg2ReliableUdpPacketStream)
    (h2 : IsOpcodeSequenced p.header.opcode = false) (h3 : p.header.opcode ≠ Unset) :
    (Send now p s).sequenceIndex = s.sequenceIndex := by
  by_cases h1 : s.state = Closing
  · rw [Send_closing now p s h1]
  · rw [Send_not_sequenced now p s h1 h2 h3]
    rfl

lemma Send_sendQueue_not_sequenced (now : Rat) (p : Frpg2ReliableUdpPacket)
    (s : Frpg2ReliableUdpPacketStream)
    (h2 : IsOpcodeSequenced p.header.opcode = false) (h3 : p.header.opcode ≠ Unset) :
    (Send now p s).sendQueue = s.sendQueue := by
  by_cases h1 : s.state = Closing
  · rw [Send_closing now p s h1]
  · rw [Send_not_sequenced now p s h1 h2 h3]
    rfl

lemma Send_ACK_sequenceIndex (now : Rat) (R : Nat) (s : Frpg2ReliableUdpPacketStream) :
    (Send_ACK now R s).sequenceIndex = s.sequenceIndex := by
  unfold Send_ACK
  dsimp only
  rw [Send_sequenceIndex_not_sequenced] <;> simp [IsOpcodeSequenced]

lemma Send_SYN_ACK_sequenceIndex (now : Rat) (R : Nat) (s : Frpg2ReliableUdpPacketStream) :
    (Send_SYN_ACK now R s).sequenceIndex = (s.sequenceIndex + 1) % MAX_ACK_VALUE := by
  unfold Send_SYN_ACK
  dsimp only
  rw [Send_sequenceIndex_not_sequenced] <;> simp [IsOpcodeSequenced]

lemma Send_HBT_sequenceIndex (now : Rat) (s : Frpg2ReliableUdpPacketStream) :
    (Send_HBT now s).sequenceIndex = s.sequenceIndex := by
  unfold Send_HBT
  dsimp only
  rw [Send_sequenceIndex_not_sequenced] <;> simp [IsOpcodeSequenced]

@[simp] lemma Send_ACK_retransmitBuffer (now : Rat) (R : Nat)
    (s : Frpg2ReliableUdpPacketStream) :
    (Send_ACK now R s).retransmitBuffer = s.retransmitBuffer := by
  simp [Send_ACK]

@[simp] lemma Handle_SYN_retransmitBuffer (now : Rat) (p : Frpg2ReliableUdpPacket)
    (s : Frpg2ReliableUdpPacketStream) :
    (Handle_SYN now p s).retransmitBuffer = s.retransmitBuffer := by
  simp [Handle_SYN, Send_SYN_ACK]

@[simp] lemma Handle_SYN_ACK_retransmitBuffer (now : Rat) (p : Frpg2ReliableUdpPacket)
    (s : Frpg2ReliableUdpPacketStream) :
    (Handle_SYN_ACK now p s).retransmitBuffer = s.retransmitBuffer := by
  simp [Handle_SYN_ACK]

@[simp] lemma Handle_DAT_retransmitBuffer (now : Rat) (p : Frpg2ReliableUdpPacket)
    (s : Frpg2ReliableUdpPacketStream) :
    (Handle_DAT now p s).retransmitBuffer = s.retransmitBuffer := by
  simp [Handle_DAT]

@[simp] lemma Handle_HBT_retransmitBuffer (now : Rat) (p : Frpg2ReliableUdpPacket)
    (s : Frpg2ReliableUdpPacketStream) :
    (Handle_HBT now p s).retransmitBuffer = s.retransmitBuffer := by
  unfold Handle_HBT
  dsimp only
  split_ifs <;> simp [Send_HBT]

@[simp] lemma Handle_FIN_retransmitBuffer (now : Rat) (p : Frpg2ReliableUdpPacket)
    (s : Frpg2ReliableUdpPacketStream) :
    (Handle_FIN now p s).retransmitBuffer = s.retransmitBuffer := by
  simp [Handle_FIN, Send_FIN_ACK]

@[simp] lemma Handle_ACK_retransmitBuffer (p : Frpg2ReliableUdpPacket)
    (s : Frpg2ReliableUdpPacketStream) :
    (Handle_ACK p s).retransmitBuffer = s.retransmitBuffer := by
  unfold Handle_ACK
  dsimp only
  split_ifs <;> rfl

@[simp] lemma Handle_DAT_ACK_retransmitBuffer (now : Rat) (p : Frpg2ReliableUdpPacket)
    (s : Frpg2ReliableUdpPacketStream) :
    (Handle_DAT_ACK now p s).retransmitBuffer = s.retransmitBuffer := by
  unfold Handle_DAT_ACK
  dsimp only
  split_ifs <;> simp

@[simp] lemma Handle_RST_retransmitBuffer (cfg : BuildConfig) (p : Frpg2ReliableUdpPacket)
    (s : Frpg2ReliableUdpPacketStream) :
    (Handle_RST cfg p s).retransmitBuffer = [] := by
  simp [Handle_RST, Reset]

lemma ProcessPacket_retransmitBuffer (cfg : BuildConfig) (now : Rat)
    (p : Frpg2ReliableUdpPacket) (s : Frpg2ReliableUdpPacketStream) :
    (ProcessPacket cfg now p s).retransmitBuffer = s.retransmitBuffer ∨
    (ProcessPacket cfg now p s).retransmitBuffer = [] := by
  cases hop : p.header.opcode <;> simp [ProcessPacket, hop, Handle_RACK, Handle_FIN_ACK]

lemma HandleIncomingPacket_retransmitBuffer (cfg : BuildConfig) (now : Rat)
    (p : Frpg2ReliableUdpPacket) (s : Frpg2ReliableUdpPacketStream) :
    (HandleIncomingPacket cfg now p s).retransmitBuffer = s.retransmitBuffer ∨
    (HandleIncomingPacket cfg now p s).retransmitBuffer = [] := by
  unfold HandleIncomingPacket
  dsimp only
  split_ifs <;>
    first
      | simp
      | (rcases ProcessPacket_retransmitBuffer cfg now p
            ({ s with lastPacketRecievedTime := now }) with h | h <;> rw [h] <;> simp)

lemma HandleIncomingPacket_retransmitBuffer_le (cfg : BuildConfig) (now : Rat)
    (p : Frpg2ReliableUdpPacket) (s : Frpg2ReliableUdpPacketStream) :
    (HandleIncomingPacket cfg now p s).retransmitBuffer.length ≤
      s.retransmitBuffer.length := by
  rcases HandleIncomingPacket_retransmitBuffer cfg now p s with h | h <;> simp [h]

lemma ProcessPendingFuel_retransmitBuffer_le (cfg : BuildConfig) (now : Rat)
    (fuel : Nat) : ∀ s : Frpg2ReliableUdpPacketStream,
    (ProcessPendingFuel cfg now fuel s).retransmitBuffer.length ≤
      s.retransmitBuffer.length := by
  induction fuel with
  | zero =>
    intro s
    simp [ProcessPendingFuel]
  | succ n ih =>
    intro s
    unfold ProcessPendingFuel
    split
    · exact le_refl _
    · split_ifs
      · rename_i Next rest heq hloc
        refine le_trans (ih _) ?_
        rcases ProcessPacket_retransmitBuffer cfg now Next s with h | h <;> simp [h]
      · exact le_refl _

lemma HandleIncoming_retransmitBuffer_le (cfg : BuildConfig) (now : Rat)
    (Incoming : List Frpg2ReliableUdpPacket) (s : Frpg2ReliableUdpPacketStream) :
    (HandleIncoming cfg now Incoming s).retransmitBuffer.length ≤
      s.retransmitBuffer.length := by
  unfold HandleIncoming
  dsimp only
  refine le_trans (ProcessPendingFuel_retransmitBuffer_le cfg now _ _) ?_
  induction Incoming generalizing s with
  | nil => exact le_refl _
  | cons a t ih =>
    rw [List.foldl_cons]
    exact le_trans (ih _) (HandleIncomingPacket_retransmitBuffer_le cfg now a s)

lemma RetransmitScan_retransmitBuffer (cfg : BuildConfig) (now : Rat)
    (Buffer : List Frpg2ReliableUdpPacket) :
    ∀ s : Frpg2ReliableUdpPacketStream,
    (RetransmitScan cfg now Buffer s).retransmitBuffer = s.retransmitBuffer := by
  induction Buffer with
  | nil =>
    intro s
    rfl
  | cons a t ih =>
    intro s
    unfold RetransmitScan at ih ⊢
    rw [List.foldl_cons]
    refine (ih _).trans ?_
    by_cases hc : now - a.sendTime > cfg.retransmitInterval <;> simp [hc, SendRaw]

lemma RetransmitCycle_retransmitBuffer (cfg : BuildConfig) (now : Rat)
    (s : Frpg2ReliableUdpPacketStream) :
    (RetransmitCycle cfg now s).retransmitBuffer = s.retransmitBuffer := by
  unfold RetransmitCycle
  split_ifs <;> simp [SendRaw]

lemma DrainSendQueueFuel_bound (cfg : BuildConfig) (fuel : Nat) :
    ∀ s : Frpg2ReliableUdpPacketStream, RetransmitBound cfg s →
    RetransmitBound cfg (DrainSendQueueFuel cfg fuel s) := by
  induction fuel with
  | zero =>
    intro s h
    exact h
  | succ n ih =>
    intro s h
    unfold DrainSendQueueFuel
    split_ifs with hc
    · split
      · exact h
      · rename_i Packet rest heq
        apply ih
        obtain ⟨h1, h2, h3⟩ := hc
        unfold RetransmitBound
        simp only [SendRaw]
        simp only [List.length_append, List.length_cons, List.length_nil]
        omega
    · exact h

lemma HandleOutgoing_bound (cfg : BuildConfig) (now : Rat)
    (s : Frpg2ReliableUdpPacketStream) (h : RetransmitBound cfg s) :
    RetransmitBound cfg (HandleOutgoing cfg now s) := by
  unfold HandleOutgoing
  dsimp only
  apply DrainSendQueueFuel_bound
  split_ifs
  · unfold RetransmitBound
    rw [RetransmitScan_retransmitBuffer]
    dsimp only
    exact le_trans (List.length_filter_le _ _) h
  · unfold RetransmitBound
    rw [RetransmitCycle_retransmitBuffer]
    dsimp only
    exact le_trans (List.length_filter_le _ _) h

lemma Pump_eq (cfg : BuildConfig) (now : Rat)
    (Incoming : List Frpg2ReliableUdpPacket) (s : Frpg2ReliableUdpPacketStream) :
    Pump cfg now Incoming s =
      if s.state = Closing ∧ s.sendQueue = [] then
        (Reset cfg { s with state := Closed }, true)
      else if s.state = Closed then
        (Reset cfg s, true)
      else if s.inErrorState then
        (s, true)
      else
        let s1 :=
          if s.state = Connecting ∧ now - s.resendSynTimer > cfg.resendSynInterval then
            { (Send_SYN now s) with resendSynTimer := now }
          else
            s
        if s.closeTimer > 0 ∧ s.state = Closing ∧
            now - s.closeTimer > cfg.connectionCloseTimeout then
          ({ s1 with state := Closed }, true)
        else
          (HandleOutgoing cfg now (HandleIncoming cfg now Incoming s1), false) := by
  unfold Pump
  by_cases h1 : s.state = Closing ∧ s.sendQueue = []
  · simp only [if_pos h1]
    try dsimp only
    simp
  · simp only [if_neg h1]
    by_cases h2 : s.state = Closed
    · simp only [if_pos h2]
    · simp only [if_neg h2]
      by_cases h3 : s.inErrorState = true
      · simp only [if_pos h3]
      · simp only [if_neg h3]
        try dsimp only
        by_cases h5 : s.state = Connecting ∧ now - s.resendSynTimer > cfg.resendSynInterval
        · simp only [if_pos h5]
          simp [Send_SYN]
        · simp only [if_neg h5]

lemma Pump_bound (cfg : BuildConfig) (now : Rat)
    (Incoming : List Frpg2ReliableUdpPacket) (s : Frpg2ReliableUdpPacketStream)
    (h : RetransmitBound cfg s) :
    RetransmitBound cfg (Pump cfg now Incoming s).1 := by
  rw [Pump_eq]
  by_cases h1 : s.state = Closing ∧ s.sendQueue = []
  · simp only [if_pos h1]
    simp [Reset, RetransmitBound]
  · simp only [if_neg h1]
    by_cases h2 : s.state = Closed
    · simp only [if_pos h2]
      simp [Reset, RetransmitBound]
    · simp only [if_neg h2]
      by_cases h3 : s.inErrorState = true
      · simp only [if_pos h3]
        exact h
      · simp only [if_neg h3]
        try dsimp only
        by_cases h4 : s.closeTimer > 0 ∧ s.state = Closing ∧
            now - s.closeTimer > cfg.connectionCloseTimeout
        · simp only [if_pos h4]
          by_cases h5 : s.state = Connecting ∧ now - s.resendSynTimer > cfg.resendSynInterval
          · simp only [if_pos h5]
            simpa [RetransmitBound, Send_SYN] using h
          · simp only [if_neg h5]
            exact h
        · simp only [if_neg h4]
          apply HandleOutgoing_bound
          unfold RetransmitBound
          refine le_trans (HandleIncoming_retransmitBuffer_le cfg now Incoming _) ?_
          by_cases h5 : s.state = Connecting ∧ now - s.resendSynTimer > cfg.resendSynInterval
          · simp only [if_pos h5]
            simpa [Send_SYN] using h
          · simp only [if_neg h5]
            exact h

/-- The ACK packet Send_ACK builds for a given remote index. -/
def AckPacketFor (RemoteIndex : Nat) : Frpg2ReliableUdpPacket :=
  { header := { localAck := 0, remoteAck := RemoteIndex, opcode := Frpg2ReliableUdpOpCode.ACK },
    payload := [], sendTime := 0 }

lemma Send_ACK_eq_of_not_closing (now : Rat) (R : Nat)
    (s : Frpg2ReliableUdpPacketStream) (h : s.state ≠ Closing) :
    Send_ACK now R s =
      { s with wire := s.wire ++ [AckPacketFor R],
               remoteSequenceIndexAcked := R, lastAckSendTime := now } := by
  unfold Send_ACK
  dsimp only
  rw [Send_not_sequenced now _ s h (by rfl) (by simp)]
  rfl

lemma HandleIncomingPacket_out_of_order (cfg : BuildConfig) (now : Rat)
    (p : Frpg2ReliableUdpPacket) (s : Frpg2ReliableUdpPacketStream)
    (hseq : IsOpcodeSequenced p.header.opcode = true)
    (hstate : s.state = Established)
    (hpend : s.pendingRecieveQueue = [])
    (hloc : p.header.localAck ≠ (s.remoteSequenceIndex + 1) % MAX_ACK_VALUE)
    (hrate : now - s.lastAckSendTime > cfg.minTimeBetweenResendAck) :
    HandleIncomingPacket cfg now p s =
      { s with lastPacketRecievedTime := now,
               lastAckSendTime := now,
               wire := s.wire ++ [AckPacketFor s.remoteSequenceIndexAcked] } := by
  have hnc : s.state ≠ Closing := by
    rw [hstate]
    simp
  unfold HandleIncomingPacket
  dsimp only
  rw [Send_ACK_eq_of_not_closing now _ _ (by simpa using hnc)]
  simp [hseq, hstate, hpend, hloc, hrate, GetNextRemoteSequenceIndex,
    GetPacketIndexByLocalSequence]

lemma HandleIncomingPacket_in_order (cfg : BuildConfig) (now : Rat)
    (p : Frpg2ReliableUdpPacket) (s : Frpg2ReliableUdpPacketStream)
    (hseq : IsOpcodeSequenced p.header.opcode = true)
    (hstate : s.state = Established)
    (hpend : s.pendingRecieveQueue = [])
    (hloc : p.header.localAck = (s.remoteSequenceIndex + 1) % MAX_ACK_VALUE) :
    HandleIncomingPacket cfg now p s =
      { s with lastPacketRecievedTime := now,
               pendingRecieveQueue := [p] } := by
  unfold HandleIncomingPacket
  dsimp only
  simp [hseq, hstate, hpend, hloc, GetNextRemoteSequenceIndex,
    GetPacketIndexByLocalSequence]

lemma Handle_DAT_eq (now : Rat) (p : Frpg2ReliableUdpPacket)
    (s : Frpg2ReliableUdpPacketStream) (h : s.state ≠ Closing) :
    Handle_DAT now p s =
      { s with
          expectedDatAckResponses := SetInsert p.header.localAck s.expectedDatAckResponses,
          recieveQueue := s.recieveQueue ++ [p],
          wire := s.wire ++ [AckPacketFor p.header.localAck],
          remoteSequenceIndexAcked := p.header.localAck,
          lastAckSendTime := now } := by
  unfold Handle_DAT
  dsimp only
  rw [Send_ACK_eq_of_not_closing now _ _ (by simpa using h)]

lemma ProcessPending_singleton_DAT (cfg : BuildConfig) (now : Rat)
    (p : Frpg2ReliableUdpPacket) (s : Frpg2ReliableUdpPacketStream)
    (hstate : s.state = Established)
    (hop : p.header.opcode = DAT)
    (hpend : s.pendingRecieveQueue = [p])
    (hloc : p.header.localAck = (s.remoteSequenceIndex + 1) % MAX_ACK_VALUE) :
    ProcessPendingFuel cfg now s.pendingRecieveQueue.length s =
      { s with
          expectedDatAckResponses := SetInsert p.header.localAck s.expectedDatAckResponses,
          recieveQueue := s.recieveQueue ++ [p],
          wire := s.wire ++ [AckPacketFor p.header.localAck],
          remoteSequenceIndexAcked := p.header.localAck,
          lastAckSendTime := now,
          pendingRecieveQueue := [],
          remoteSequenceIndex := (s.remoteSequenceIndex + 1) % MAX_ACK_VALUE } := by
  have hnc : s.state ≠ Closing := by
    rw [hstate]
    simp
  rw [hpend]
  simp only [List.length_cons, List.length_nil, Nat.zero_add]
  unfold ProcessPendingFuel
  rw [hpend]
  simp only [GetNextRemoteSequenceIndex, hloc, if_pos rfl]
  rw [show ProcessPacket cfg now p s = Handle_DAT now p s by simp [ProcessPacket, hop]]
  rw [Handle_DAT_eq now p s hnc]
  unfold ProcessPendingFuel
  simp [hpend, hloc]

lemma HandleIncoming_reordered (cfg : BuildConfig) (now : Rat)
    (d3 d2 : Frpg2ReliableUdpPacket) (s : Frpg2ReliableUdpPacketStream)
    (hstate : s.state = Established)
    (hpend : s.pendingRecieveQueue = [])
    (hwrap : s.remoteSequenceIndex + 2 < MAX_ACK_VALUE)
    (hd3 : d3.header.opcode = DAT)
    (hd3l : d3.header.localAck = s.remoteSequenceIndex + 2)
    (hd2 : d2.header.opcode = DAT)
    (hd2l : d2.header.localAck = s.remoteSequenceIndex + 1)
    (hrate : now - s.lastAckSendTime > cfg.minTimeBetweenResendAck) :
    HandleIncoming cfg now [d3, d2] s =
      { s with
          lastPacketRecievedTime := now,
          lastAckSendTime := now,
          expectedDatAckResponses :=
            SetInsert (s.remoteSequenceIndex + 1) s.expectedDatAckResponses,
          recieveQueue := s.recieveQueue ++ [d2],
          pendingRecieveQueue := [],
          remoteSequenceIndex := s.remoteSequenceIndex + 1,
          remoteSequenceIndexAcked := s.remoteSequenceIndex + 1,
          wire := s.wire ++ [AckPacketFor s.remoteSequenceIndexAcked,
                             AckPacketFor (s.remoteSequenceIndex + 1)] } := by
  have hm : (s.remoteSequenceIndex + 1) % MAX_ACK_VALUE = s.remoteSequenceIndex + 1 :=
    Nat.mod_eq_of_lt (by omega)
  have hseq3 : IsOpcodeSequenced d3.header.opcode = true := by rw [hd3]; rfl
  have hseq2 : IsOpcodeSequenced d2.header.opcode = true := by rw [hd2]; rfl
  unfold HandleIncoming
  dsimp only
  rw [List.foldl_cons, List.foldl_cons, List.foldl_nil]
  rw [HandleIncomingPacket_out_of_order cfg now d3 s hseq3 hstate hpend
    (by rw [hm, hd3l]; omega) hrate]
  rw [HandleIncomingPacket_in_order cfg now d2 _ hseq2 (by simpa using hstate)
    (by simpa using hpend) (by simpa [hm] using hd2l)]
  rw [ProcessPending_singleton_DAT cfg now d2 _ (by simpa using hstate) hd2
    (by simp) (by simpa [hm] using hd2l)]
  simp [hd2l, hm, hpend]

end Frpg2ReliableUdpPacketStream

section ClaimTheorems

open Frpg2ReliableUdpPacketStream Frpg2ReliableUdpOpCode Frpg2ReliableUdpStreamState

/-- C3: a packet with a sequenced opcode (DAT, DAT_ACK or FIN_ACK)
received while the stream state is not Established marks the stream
fatal and is dropped: the resulting state differs from the input only in
the receive timestamp and the error flag, so the packet reaches neither
pending_receive_queue nor receive_queue and no opcode handler runs. -/
theorem C3_sequenced_packet_pre_handshake (cfg : BuildConfig) (now : Rat)
    (p : Frpg2ReliableUdpPacket) (s : Frpg2ReliableUdpPacketStream)
    (hseq : IsOpcodeSequenced p.header.opcode = true)
    (hstate : s.state ≠ Established) :
    HandleIncomingPacket cfg now p s =
      { s with lastPacketRecievedTime := now, inErrorState := true } := by
  simp [HandleIncomingPacket, hseq, hstate]

/-- C3 witness: a DAT packet arriving while the handshake is still in
SynRecieved. -/
theorem C3_sequenced_packet_pre_handshake_witness :
    HandleIncomingPacket testCfg 5 (testPacket 2 0 DAT)
      ({ testStream with state := (SynRecieved) }) =
      ({ testStream with
          state := (SynRecieved), lastPacketRecievedTime := 5, inErrorState := true }) :=
  C3_sequenced_packet_pre_handshake testCfg 5 (testPacket 2 0 DAT)
    ({ testStream with state := (SynRecieved) }) (by decide) (by decide)

/-- C7: a datagram whose reliable header is malformed — payload shorter
than the 12-byte header, or first two bytes differing from the magic
0xF5 0x02 — marks the stream fatal and decodes to no reliable packet. -/
theorem C7_malformed_header_fatal (parse : List Nat → Frpg2ReliableUdpPacketHeader)
    (Input : List Nat) (s : Frpg2ReliableUdpPacketStream)
    (h : Input.length < 12 ∨ Input.take 2 ≠ [0xF5, 0x02]) :
    DecodeReliablePacket parse Input s = ({ s with inErrorState := true }, none) := by
  by_cases hlen : Input.length < 12
  · simp [DecodeReliablePacket, hlen]
  · have hmagic : Input.take 2 ≠ [0xF5, 0x02] := h.resolve_left hlen
    simp [DecodeReliablePacket, hlen, hmagic]

/-- C7 witness: a three-byte datagram. -/
theorem C7_malformed_header_fatal_witness :
    DecodeReliablePacket (fun l => (testPacket l.length 0 DAT).header) [1, 2, 3] testStream =
      ({ testStream with inErrorState := true }, none) :=
  C7_malformed_header_fatal (fun l => (testPacket l.length 0 DAT).header) [1, 2, 3]
    testStream (by decide)

/-- C8: on a supervisor poll whose elapsed time since
last_message_received_time reaches CLIENT_TIMEOUT, Poll returns the
disconnect flag and neither the network connection nor the message
stream is pumped in that tick. -/
theorem C8_client_timeout_disconnects_before_pumping (cfg : BuildConfig)
    (inp : GameClientPollInput) (c : GameClient)
    (h : inp.now - c.lastMessageRecievedTime ≥ cfg.clientTimeout) :
    (GameClient.Poll cfg inp c).2.disconnect = true ∧
    (GameClient.Poll cfg inp c).2.pumpedConnection = false ∧
    (GameClient.Poll cfg inp c).2.pumpedMessageStream = false := by
  simp [GameClient.Poll, h]

/-- C8 witness: a poll 60 seconds after the last message with the test
configuration value CLIENT_TIMEOUT = 60. -/
theorem C8_client_timeout_disconnects_before_pumping_witness :
    (GameClient.Poll testCfg ⟨60, false, true, false, []⟩ ⟨0⟩).2.disconnect = true ∧
    (GameClient.Poll testCfg ⟨60, false, true, false, []⟩ ⟨0⟩).2.pumpedConnection = false ∧
    (GameClient.Poll testCfg ⟨60, false, true, false, []⟩ ⟨0⟩).2.pumpedMessageStream = false :=
  C8_client_timeout_disconnects_before_pumping testCfg ⟨60, false, true, false, []⟩ ⟨0⟩
    (by norm_num [testCfg, GameClient.init])

/-- C9: the supervisor sets last_message_received_time only in the
constructor and no Poll ever updates it, so after any sequence of polls
with arbitrary inputs, a poll at least CLIENT_TIMEOUT after construction
returns disconnect regardless of the traffic received in between. -/
theorem C9_last_message_time_never_refreshed (cfg : BuildConfig) (t0 : Rat)
    (inputs : List GameClientPollInput) (inp : GameClientPollInput)
    (h : inp.now - t0 ≥ cfg.clientTimeout) :
    (GameClient.PollMany cfg inputs (GameClient.init t0)).lastMessageRecievedTime = t0 ∧
    (GameClient.Poll cfg inp (GameClient.PollMany cfg inputs (GameClient.init t0))).2.disconnect
      = true := by
  have hfix : ∀ (d : GameClient) (i : GameClientPollInput), (GameClient.Poll cfg i d).1 = d := by
    intro d i
    unfold GameClient.Poll
    split_ifs <;> rfl
  have hmany : ∀ (l : List GameClientPollInput) (d : GameClient),
      GameClient.PollMany cfg l d = d := by
    intro l
    induction l with
    | nil => intro d; rfl
    | cons a t ih =>
      intro d
      unfold GameClient.PollMany at ih ⊢
      rw [List.foldl_cons, hfix d a]
      exact ih d
  rw [hmany]
  refine ⟨rfl, ?_⟩
  have h9 : inp.now - (GameClient.init t0).lastMessageRecievedTime ≥ cfg.clientTimeout := h
  simp [GameClient.Poll, h9]

/-- C9 witness: two polls full of inbound traffic do not postpone the
timeout of a later poll. -/
theorem C9_last_message_time_never_refreshed_witness :
    (GameClient.PollMany testCfg [⟨1, false, true, false, [7]⟩, ⟨2, false, true, false, [8]⟩]
      (GameClient.init 0)).lastMessageRecievedTime = 0 ∧
    (GameClient.Poll testCfg ⟨60, false, true, false, [9]⟩
      (GameClient.PollMany testCfg [⟨1, false, true, false, [7]⟩, ⟨2, false, true, false, [8]⟩]
        (GameClient.init 0))).2.disconnect = true :=
  C9_last_message_time_never_refreshed testCfg 0
    [⟨1, false, true, false, [7]⟩, ⟨2, false, true, false, [8]⟩]
    ⟨60, false, true, false, [9]⟩ (by norm_num [testCfg])

/-- C10: Decrypt fails and produces no plaintext for every input shorter
than 11+16+1 bytes; for inputs at least that long it hands the 11-byte IV
and 16-byte tag from the front, together with the remaining ciphertext
bytes, to the CWC primitive, so it fails exactly when tag verification
fails and otherwise returns the decryption of the remaining bytes. -/
theorem C10_decrypt_framing (cwc : List Nat → List Nat → List Nat → Option (List Nat))
    (Input : List Nat) :
    (Input.length < 11 + 16 + 1 → CWCCipher.Decrypt cwc Input = none) ∧
    (11 + 16 + 1 ≤ Input.length →
      CWCCipher.Decrypt cwc Input =
        cwc (Input.take 11) ((Input.drop 11).take 16) (Input.drop 27)) := by
  constructor
  · intro h
    simp [CWCCipher.Decrypt, h]
  · intro h
    have h2 : ¬ Input.length < 11 + 16 + 1 := by omega
    simp [CWCCipher.Decrypt, h2]

/-- C10 witness: a 27-byte input fails, and on a 28-byte input the
primitive receives the IV, tag and the single remaining ciphertext
byte. -/
theorem C10_decrypt_framing_witness :
    (CWCCipher.Decrypt (fun _ _ body => some body) (List.replicate 27 1) = none) ∧
    (CWCCipher.Decrypt (fun _ _ body => some body) (List.replicate 28 1) =
      (fun (_ _ body : List Nat) => some body) ((List.replicate 28 1).take 11)
        (((List.replicate 28 1).drop 11).take 16) ((List.replicate 28 1).drop 27)) :=
  ⟨(C10_decrypt_framing (fun _ _ body => some body) (List.replicate 27 1)).1 (by decide),
   (C10_decrypt_framing (fun _ _ body => some body) (List.replicate 28 1)).2 (by decide)⟩

/-- C6: processing an ACK, HBT or DAT_ACK packet updates
sequence_index_acked from the remote_ack of the packet by the modular-compare
rule of the spec (wraparound to y when above TOP_QUART with y below
BOTTOM_QUART, otherwise maximum). -/
theorem C6_modular_ack_update (cfg : BuildConfig) (now : Rat)
    (p : Frpg2ReliableUdpPacket) (s : Frpg2ReliableUdpPacketStream) :
    (p.header.opcode = ACK →
      (ProcessPacket cfg now p s).sequenceIndexAcked =
        SpecModularMaxUpdate s.sequenceIndexAcked p.header.remoteAck) ∧
    (p.header.opcode = HBT →
      (ProcessPacket cfg now p s).sequenceIndexAcked =
        SpecModularMaxUpdate s.sequenceIndexAcked p.header.remoteAck) ∧
    (p.header.opcode = DAT_ACK →
      (ProcessPacket cfg now p s).sequenceIndexAcked =
        SpecModularMaxUpdate s.sequenceIndexAcked p.header.remoteAck) := by
  refine ⟨?_, ?_, ?_⟩ <;> intro hop
  · simp only [ProcessPacket, hop]
    unfold Handle_ACK SpecModularMaxUpdate MAX_ACK_VALUE_TOP_QUART MAX_ACK_VALUE_BOTTOM_QUART
    dsimp only
    split_ifs <;> simp_all
  · simp only [ProcessPacket, hop]
    unfold Handle_HBT Send_HBT SpecModularMaxUpdate MAX_ACK_VALUE_TOP_QUART MAX_ACK_VALUE_BOTTOM_QUART
    dsimp only
    split_ifs <;> simp_all
  · simp only [ProcessPacket, hop]
    unfold Handle_DAT_ACK Send_ACK SpecModularMaxUpdate MAX_ACK_VALUE_TOP_QUART MAX_ACK_VALUE_BOTTOM_QUART
    dsimp only
    split_ifs <;> simp_all

/-- C6 witness: an ACK carrying remote_ack 7 lifts sequence_index_acked
from 3 to max(3, 7) = 7. -/
theorem C6_modular_ack_update_witness :
    (ProcessPacket testCfg 0 (testPacket 0 7 ACK) testStream).sequenceIndexAcked =
      SpecModularMaxUpdate testStream.sequenceIndexAcked (testPacket 0 7 ACK).header.remoteAck :=
  (C6_modular_ack_update testCfg 0 (testPacket 0 7 ACK) testStream).1 rfl

/-- C2 counterexample: SYN_ACK is not a sequenced opcode, yet both
sending one through Send_SYN_ACK and receiving one through
Handle_SYN_ACK increment sequence_index (from 10 to 11 here), refuting
the claim that no non-sequenced opcode ever increments it. -/
theorem C2_counterexample_syn_ack_increments :
    testStream.sequenceIndex = 10 ∧
    IsOpcodeSequenced SYN_ACK = false ∧
    (Send_SYN_ACK 0 5 testStream).sequenceIndex = 11 ∧
    (Handle_SYN_ACK 0 (testPacket 4 0 SYN_ACK) testStream).sequenceIndex = 11 := by
  decide

/-- C2 (amended): queueing a sequenced packet while not Closing
increments sequence_index mod 2^24, and Send of a non-sequenced,
non-Unset opcode never does; but SYN_ACK is special: Send_SYN_ACK and
Handle_SYN_ACK (and Handle_SYN via its SYN_ACK response) each increment
sequence_index explicitly, while the remaining non-sequenced receive
handlers (ACK, HBT, RACK, FIN_ACK) leave it unchanged. -/
theorem C2_amended_sequence_increments (now : Rat) (RemoteIndex : Nat)
    (p : Frpg2ReliableUdpPacket) (s : Frpg2ReliableUdpPacketStream) :
    (IsOpcodeSequenced p.header.opcode = true → s.state ≠ Closing →
      (Send now p s).sequenceIndex = (s.sequenceIndex + 1) % MAX_ACK_VALUE) ∧
    (IsOpcodeSequenced p.header.opcode = false → p.header.opcode ≠ Unset →
      (Send now p s).sequenceIndex = s.sequenceIndex) ∧
    ((Send_SYN_ACK now RemoteIndex s).sequenceIndex = (s.sequenceIndex + 1) % MAX_ACK_VALUE) ∧
    ((Handle_SYN_ACK now p s).sequenceIndex = (s.sequenceIndex + 1) % MAX_ACK_VALUE) ∧
    ((Handle_SYN now p s).sequenceIndex = (s.sequenceIndex + 1) % MAX_ACK_VALUE) ∧
    ((Handle_ACK p s).sequenceIndex = s.sequenceIndex) ∧
    ((Handle_HBT now p s).sequenceIndex = s.sequenceIndex) ∧
    ((Handle_RACK p s).sequenceIndex = s.sequenceIndex) ∧
    ((Handle_FIN_ACK p s).sequenceIndex = s.sequenceIndex) := by
  refine ⟨?_, ?_, ?_, ?_, ?_, ?_, ?_, ?_, ?_⟩
  · intro h1 h2
    rw [Send_sequenced now p s h2 h1]
  · intro h1 h2
    exact Send_sequenceIndex_not_sequenced now p s h1 h2
  · exact Send_SYN_ACK_sequenceIndex now RemoteIndex s
  · unfold Handle_SYN_ACK
    dsimp only
    rw [Send_ACK_sequenceIndex]
  · unfold Handle_SYN
    dsimp only
    rw [Send_ACK_sequenceIndex, Send_SYN_ACK_sequenceIndex]
  · unfold Handle_ACK
    dsimp only
    split_ifs <;> rfl
  · unfold Handle_HBT
    dsimp only
    split_ifs <;> rw [Send_HBT_sequenceIndex]
  · rfl
  · rfl

/-- C2 witness: a DAT queue bumps the sequence, a raw ACK leaves it, and
a SYN_ACK send bumps it. -/
theorem C2_amended_sequence_increments_witness :
    ((Send 0 (testPacket 0 0 DAT) testStream).sequenceIndex =
      (testStream.sequenceIndex + 1) % MAX_ACK_VALUE) ∧
    ((Send 0 (testPacket 0 0 ACK) testStream).sequenceIndex = testStream.sequenceIndex) ∧
    ((Send_SYN_ACK 0 5 testStream).sequenceIndex =
      (testStream.sequenceIndex + 1) % MAX_ACK_VALUE) :=
  ⟨(C2_amended_sequence_increments 0 5 (testPacket 0 0 DAT) testStream).1
      (by decide) (by decide),
   (C2_amended_sequence_increments 0 5 (testPacket 0 0 ACK) testStream).2.1
      (by decide) (by decide),
   (C2_amended_sequence_increments 0 5 (testPacket 0 0 ACK) testStream).2.2.1⟩

/-- C4: the bounded-in-flight invariant — retransmit_buffer holds at
most MAX_PACKETS_IN_FLIGHT packets — is preserved by every operation of
the reliable stream: reset, send, receive, connect, disconnect, the
opcode handlers (through ProcessPacket), per-packet and per-tick incoming
handling, outgoing handling and pump. -/
theorem C4_bounded_in_flight (cfg : BuildConfig) (now : Rat)
    (p : Frpg2ReliableUdpPacket) (Incoming : List Frpg2ReliableUdpPacket)
    (s : Frpg2ReliableUdpPacketStream) (h : RetransmitBound cfg s) :
    RetransmitBound cfg (Reset cfg s) ∧
    RetransmitBound cfg (Send now p s) ∧
    RetransmitBound cfg (Recieve s).2 ∧
    RetransmitBound cfg (Connect now s) ∧
    RetransmitBound cfg (Disconnect now s) ∧
    RetransmitBound cfg (ProcessPacket cfg now p s) ∧
    RetransmitBound cfg (HandleIncomingPacket cfg now p s) ∧
    RetransmitBound cfg (HandleIncoming cfg now Incoming s) ∧
    RetransmitBound cfg (HandleOutgoing cfg now s) ∧
    RetransmitBound cfg (Pump cfg now Incoming s).1 := by
  refine ⟨?_, ?_, ?_, ?_, ?_, ?_, ?_, ?_, ?_, ?_⟩
  · simp [Reset, RetransmitBound]
  · simpa [RetransmitBound] using h
  · unfold Recieve
    rcases hq : s.recieveQueue with _ | ⟨a, t⟩ <;> simpa [RetransmitBound] using h
  · simpa [RetransmitBound, Connect, Send_SYN] using h
  · unfold Disconnect
    split_ifs <;> simpa [RetransmitBound, Send_FIN] using h
  · rcases ProcessPacket_retransmitBuffer cfg now p s with hb | hb
    · simpa [RetransmitBound, hb] using h
    · simp [RetransmitBound, hb]
  · rcases HandleIncomingPacket_retransmitBuffer cfg now p s with hb | hb
    · simpa [RetransmitBound, hb] using h
    · simp [RetransmitBound, hb]
  · unfold RetransmitBound
    exact le_trans (HandleIncoming_retransmitBuffer_le cfg now Incoming s) h
  · exact HandleOutgoing_bound cfg now s h
  · exact Pump_bound cfg now Incoming s h

/-- C4 witness: the invariant holds on the concrete test stream and is
preserved by a pump tick that delivers one DAT packet. -/
theorem C4_bounded_in_flight_witness :
    RetransmitBound testCfg (Reset testCfg testStream) ∧
    RetransmitBound testCfg (Send 0 (testPacket 2 0 DAT) testStream) ∧
    RetransmitBound testCfg (Recieve testStream).2 ∧
    RetransmitBound testCfg (Connect 0 testStream) ∧
    RetransmitBound testCfg (Disconnect 0 testStream) ∧
    RetransmitBound testCfg (ProcessPacket testCfg 0 (testPacket 2 0 DAT) testStream) ∧
    RetransmitBound testCfg (HandleIncomingPacket testCfg 0 (testPacket 2 0 DAT) testStream) ∧
    RetransmitBound testCfg (HandleIncoming testCfg 0 [testPacket 2 0 DAT] testStream) ∧
    RetransmitBound testCfg (HandleOutgoing testCfg 0 testStream) ∧
    RetransmitBound testCfg (Pump testCfg 0 [testPacket 2 0 DAT] testStream).1 :=
  C4_bounded_in_flight testCfg 0 (testPacket 2 0 DAT) [testPacket 2 0 DAT] testStream
    (by decide)

/-- C1 counterexample: with remote sequence 1 last delivered, DAT
local=3 then DAT local=2 arrive in one tick of an Established test
stream.  The code drops the out-of-order local=3 packet instead of
buffering it: after both arrivals receive() can only ever yield packet 2
(not 2 then 3), while the wire shows the re-ACK of the last in-order
sequence 1 followed by the ACK for 2. -/
theorem C1_reordered_dat_counterexample :
    ((Frpg2ReliableUdpPacketStream.HandleIncoming testCfg 100
        [testPacket 3 0 DAT, testPacket 2 0 DAT] testStream).recieveQueue.map
          (fun q => q.header.localAck) = [2]) ∧
    ((Frpg2ReliableUdpPacketStream.HandleIncoming testCfg 100
        [testPacket 3 0 DAT, testPacket 2 0 DAT] testStream).wire.map
          (fun q => (q.header.opcode, q.header.remoteAck)) = [(ACK, 1), (ACK, 2)]) := by
  have h := Frpg2ReliableUdpPacketStream.HandleIncoming_reordered testCfg 100
    (testPacket 3 0 DAT) (testPacket 2 0 DAT) testStream rfl rfl (by decide)
    rfl rfl rfl rfl (by norm_num [testCfg, testStream])
  rw [h]
  decide

/-- C1 (amended): for every Established stream with an empty pending
queue that receives DAT local = r+2 before DAT local = r+1 (r the current
remote sequence index, away from wraparound, with the ACK rate limit
open), the out-of-order r+2 packet is dropped, not buffered: its arrival
triggers a re-ACK of the last acknowledged in-order sequence, and once
r+1 arrives receive() gains only packet r+1; packet r+2 is delivered only
if the peer retransmits it later. -/
theorem C1_reordered_dat_drops_ahead (cfg : BuildConfig) (now : Rat)
    (d3 d2 : Frpg2ReliableUdpPacket) (s : Frpg2ReliableUdpPacketStream)
    (hstate : s.state = Established)
    (hpend : s.pendingRecieveQueue = [])
    (hwrap : s.remoteSequenceIndex + 2 < MAX_ACK_VALUE)
    (hd3 : d3.header.opcode = DAT)
    (hd3l : d3.header.localAck = s.remoteSequenceIndex + 2)
    (hd2 : d2.header.opcode = DAT)
    (hd2l : d2.header.localAck = s.remoteSequenceIndex + 1)
    (hrate : now - s.lastAckSendTime > cfg.minTimeBetweenResendAck) :
    Frpg2ReliableUdpPacketStream.HandleIncoming cfg now [d3, d2] s =
      { s with
          lastPacketRecievedTime := now,
          lastAckSendTime := now,
          expectedDatAckResponses :=
            SetInsert (s.remoteSequenceIndex + 1) s.expectedDatAckResponses,
          recieveQueue := s.recieveQueue ++ [d2],
          pendingRecieveQueue := [],
          remoteSequenceIndex := s.remoteSequenceIndex + 1,
          remoteSequenceIndexAcked := s.remoteSequenceIndex + 1,
          wire := s.wire ++ [AckPacketFor s.remoteSequenceIndexAcked,
                             AckPacketFor (s.remoteSequenceIndex + 1)] } :=
  Frpg2ReliableUdpPacketStream.HandleIncoming_reordered cfg now d3 d2 s
    hstate hpend hwrap hd3 hd3l hd2 hd2l hrate

/-- C1 witness: the amended scenario at the concrete test stream. -/
theorem C1_reordered_dat_drops_ahead_witness :
    Frpg2ReliableUdpPacketStream.HandleIncoming testCfg 100
        [testPacket 3 0 DAT, testPacket 2 0 DAT] testStream =
      { testStream with
          lastPacketRecievedTime := 100,
          lastAckSendTime := 100,
          expectedDatAckResponses := [2],
          recieveQueue := [testPacket 2 0 DAT],
          pendingRecieveQueue := [],
          remoteSequenceIndex := 2,
          remoteSequenceIndexAcked := 2,
          wire := [AckPacketFor 1, AckPacketFor 2] } :=
  C1_reordered_dat_drops_ahead testCfg 100 (testPacket 3 0 DAT) (testPacket 2 0 DAT)
    testStream rfl rfl (by decide) rfl rfl rfl rfl (by norm_num [testCfg, testStream])

/-- C5 counterexample: a pump tick on a SynRecieved stream that ingests
a DAT packet marks the stream fatal during the tick (sequenced packet
pre-handshake) yet still returns false; the fatal state is only reported
by the next pump call, refuting that pump returns true exactly when the
stream is terminally closed or in a fatal error state. -/
theorem C5_pump_counterexample :
    ((Frpg2ReliableUdpPacketStream.Pump testCfg 100 [testPacket 2 0 DAT]
        ({ testStream with state := (SynRecieved) })).2 = false) ∧
    ((Frpg2ReliableUdpPacketStream.Pump testCfg 100 [testPacket 2 0 DAT]
        ({ testStream with state := (SynRecieved) })).1.inErrorState = true) :=
  ⟨rfl, rfl⟩

/-- C5 (amended): pump returns true exactly when, at entry to the call,
the stream is already Closed, is Closing with a drained send queue, has
the fatal flag set, or is Closing past the close timeout; a pump on a
Closing stream with empty send_queue transitions it to Closed (returning
true); and whenever pump returns true the stream it leaves behind is
Closed or fatal.  A fatal fault raised while processing the packets of
this tick is reported by the next pump call, not the current one. -/
theorem C5_pump_terminal_iff (cfg : BuildConfig) (now : Rat)
    (Incoming : List Frpg2ReliableUdpPacket) (s : Frpg2ReliableUdpPacketStream) :
    ((Frpg2ReliableUdpPacketStream.Pump cfg now Incoming s).2 = true ↔
      (s.state = Closed ∨ (s.state = Closing ∧ s.sendQueue = []) ∨
       s.inErrorState = true ∨
       (s.closeTimer > 0 ∧ s.state = Closing ∧
        now - s.closeTimer > cfg.connectionCloseTimeout))) ∧
    (s.state = Closing → s.sendQueue = [] →
      (Frpg2ReliableUdpPacketStream.Pump cfg now Incoming s).1.state = Closed ∧
      (Frpg2ReliableUdpPacketStream.Pump cfg now Incoming s).2 = true) ∧
    ((Frpg2ReliableUdpPacketStream.Pump cfg now Incoming s).2 = true →
      (Frpg2ReliableUdpPacketStream.Pump cfg now Incoming s).1.state = Closed ∨
      (Frpg2ReliableUdpPacketStream.Pump cfg now Incoming s).1.inErrorState = true) := by
  rw [Frpg2ReliableUdpPacketStream.Pump_eq]
  by_cases h1 : s.state = Closing ∧ s.sendQueue = []
  · simp only [if_pos h1]
    refine ⟨by simp [h1], by intro _ _; simp [Frpg2ReliableUdpPacketStream.Reset], ?_⟩
    intro _
    left
    simp [Frpg2ReliableUdpPacketStream.Reset]
  · simp only [if_neg h1]
    by_cases h2 : s.state = Closed
    · simp only [if_pos h2]
      refine ⟨by simp [h2], ?_, ?_⟩
      · intro hc _
        rw [h2] at hc
        exact absurd hc (by simp)
      · intro _
        left
        simp [Frpg2ReliableUdpPacketStream.Reset, h2]
    · simp only [if_neg h2]
      by_cases h3 : s.inErrorState = true
      · simp only [if_pos h3]
        refine ⟨by simp [h1, h2, h3], ?_, by intro _; right; exact h3⟩
        intro hc hq
        exact absurd ⟨hc, hq⟩ h1
      · simp only [if_neg h3]
        try dsimp only
        by_cases h4 : s.closeTimer > 0 ∧ s.state = Closing ∧
            now - s.closeTimer > cfg.connectionCloseTimeout
        · simp only [if_pos h4]
          refine ⟨by simp [h1, h2, h3, h4], ?_, by intro _; left; simp⟩
          intro hc hq
          exact absurd ⟨hc, hq⟩ h1
        · simp only [if_neg h4]
          refine ⟨by simp [h1, h2, h3, h4], ?_, ?_⟩
          · intro hc hq
            exact absurd ⟨hc, hq⟩ h1
          · intro hcon
            exact absurd hcon (by simp)

/-- C5 witness: a Closing stream with a drained send queue pumps to
Closed and reports terminal. -/
theorem C5_pump_terminal_iff_witness :
    (Frpg2ReliableUdpPacketStream.Pump testCfg 0 []
        ({ testStream with state := (Closing) })).1.state = Closed ∧
    (Frpg2ReliableUdpPacketStream.Pump testCfg 0 []
        ({ testStream with state := (Closing) })).2 = true :=
  (C5_pump_terminal_iff testCfg 0 [] ({ testStream with state := (Closing) })).2.1 rfl rfl

end ClaimTheorems
